import Mathlib

/-!
Verification of the cortex_m build-resolution script
(src/builder/frameworks/cortex_m.py).

The script resolves, for one embedded build target, the device pack
directory, the linker script, the SVD debug file, extra header include
directories, and the startup / system source files.  We give a shallow
embedding: the filesystem is a finite list of existing paths, a path is
its list of components, the board configuration is an association list,
and Python `Path.glob` is modelled by an fnmatch-style pattern matcher
restricted to the constructs the script uses (literals, `*`, `?`, and
plain `[chars]` classes; ranges, negated classes and dot-file
special-casing are not used by the script and are not modelled).
All definitions are structurally recursive so they evaluate by rfl.
-/

namespace CortexM

/-- A filesystem path, as its list of components (Python pathlib.Path). -/
abbrev FPath := List String

/-- A filesystem state: the list of every existing path (files and
directories are each listed explicitly). -/
abbrev FS := List FPath

/-- Python `path.exists()`: the path is one of the existing entries. -/
def fsExists (fs : FS) (p : FPath) : Bool := fs.contains p

/-- Python `Path.__truediv__`: append the (possibly slash-separated)
string to the path. -/
def splitChars : List Char → List (List Char)
  | [] => [[]]
  | c :: rest =>
    let r := splitChars rest
    if c == '/' then [] :: r
    else
      match r with
      | [] => [[c]]
      | x :: xs => (c :: x) :: xs

/-- Split a string on the `/` separator (Python `str.split('/')`,
as used implicitly by pathlib on patterns and joined names). -/
def splitOnSlash (s : String) : List String := (splitChars s.data).map String.mk

/-- Python `Path / name`. -/
def pathJoin (p : FPath) (s : String) : FPath := p ++ splitOnSlash s

/-- Python `Path.name`: the final path component. -/
def pathName (p : FPath) : String := p.getLastD ""

/-- Python `Path.as_posix()`: components joined with `/`.  `resolve()` is
the identity in this model (paths are already absolute and symlink-free). -/
def pathPosix : FPath → String
  | [] => ""
  | [x] => x
  | x :: xs => x ++ "/" ++ pathPosix xs

/-- Python `str.removeprefix`. -/
def removePre (s pre : String) : String :=
  if pre.data.isPrefixOf s.data then String.mk (s.data.drop pre.data.length) else s

/-- One token of an fnmatch pattern component. -/
inductive GTok where
  | lit (c : Char)
  | any
  | one
  | cls (cs : List Char)
deriving Repr, DecidableEq

/-- Tokenize one fnmatch pattern component.  The optional first argument
accumulates the characters of an open `[...]` class. -/
def tokenizeAux : Option (List Char) → List Char → List GTok
  | none, [] => []
  | none, c :: rest =>
    if c == '*' then GTok.any :: tokenizeAux none rest
    else if c == '?' then GTok.one :: tokenizeAux none rest
    else if c == '[' then tokenizeAux (some []) rest
    else GTok.lit c :: tokenizeAux none rest
  | some acc, [] => [GTok.cls acc.reverse]
  | some acc, c :: rest =>
    if c == ']' then GTok.cls acc.reverse :: tokenizeAux none rest
    else tokenizeAux (some (c :: acc)) rest

/-- Tokenize a pattern component. -/
def tokenize (cs : List Char) : List GTok := tokenizeAux none cs

/-- Match a tokenized pattern component against a file-name.  The `any`
token may swallow any (possibly empty) run of characters, so it tries
every suffix of the remaining name. -/
def matchToks : List GTok → List Char → Bool
  | [], cs => cs.isEmpty
  | GTok.lit c :: ps, cs =>
    match cs with
    | [] => false
    | n :: ns => c == n && matchToks ps ns
  | GTok.one :: ps, cs =>
    match cs with
    | [] => false
    | _ :: ns => matchToks ps ns
  | GTok.cls l :: ps, cs =>
    match cs with
    | [] => false
    | n :: ns => l.contains n && matchToks ps ns
  | GTok.any :: ps, cs => (cs.tails).any (fun ys => matchToks ps ys)

/-- Does a pattern component (as a string) match a name (as a string)? -/
def matchesName (pat name : String) : Bool := matchToks (tokenize pat.data) name.data

/-- Match a list of tokenized pattern components against a relative path
(component by component; lengths must agree). -/
def matchesAll : List (List GTok) → List String → Bool
  | [], [] => true
  | p :: ps, n :: ns => matchToks p n.data && matchesAll ps ns
  | _, _ => false

/-- Python `base.glob(pattern)`: every existing path under `base` whose
relative path matches the slash-separated pattern component-wise. -/
def glob (fs : FS) (base : FPath) (pattern : String) : List FPath :=
  let pats := (splitOnSlash pattern).map (fun c => tokenize c.data)
  fs.filter (fun e => base.isPrefixOf e && matchesAll pats (e.drop base.length))

/-- Source `two_layer_glob`: `chain(folder.glob(name), folder.glob(f'*/{name}'))`. -/
def two_layer_glob (fs : FS) (folder : FPath) (name : String) : List FPath :=
  glob fs folder name ++ glob fs folder ("*/" ++ name)

/-- A value stored in the board configuration (the script only ever reads
strings, booleans and string lists from it). -/
inductive BVal where
  | str (s : String)
  | bool (b : Bool)
  | list (l : List String)
deriving Repr, DecidableEq

/-- The board configuration: a key/value association list.  Lookup takes
the first binding, so prepending a binding implements dict update. -/
structure Board where
  entries : List (String × BVal)
deriving Repr, DecidableEq

/-- First binding of a key, if any. -/
def Board.find? (b : Board) (k : String) : Option BVal :=
  (b.entries.find? (fun e => e.fst == k)).map (fun e => e.snd)

/-- Mirror of `board.get(key, None)` for a string-valued key. -/
def Board.getStr? (b : Board) (k : String) : Option String :=
  match b.find? k with
  | some (BVal.str s) => some s
  | _ => none

/-- Mirror of `board.get(key, default)` for a boolean-valued key. -/
def Board.getBool (b : Board) (k : String) (d : Bool) : Bool :=
  match b.find? k with
  | some (BVal.bool v) => v
  | _ => d

/-- Mirror of `board.get(key, default)` for a list-valued key. -/
def Board.getList (b : Board) (k : String) (d : List String) : List String :=
  match b.find? k with
  | some (BVal.list l) => l
  | _ => d

/-- Mirror of `board.update(key, value)`: prepend the binding (lookup
takes the first hit, so this replaces the stored value). -/
def Board.update (b : Board) (k : String) (v : BVal) : Board :=
  ⟨(k, v) :: b.entries⟩

/-- An emitted diagnostic line: Python `print` goes to stdout, warnings
are written with `sys.stderr.write`. -/
inductive Chan where
  | stdout
  | stderr
deriving Repr, DecidableEq

/-- One diagnostic message. -/
structure Msg where
  chan : Chan
  text : String
deriving Repr, DecidableEq

/-- Source `do_not_support_any_framework`: `board.update('frameworks', [])`. -/
def do_not_support_any_framework (board : Board) : Board :=
  board.update "frameworks" (BVal.list [])

/-- Source local `product_line_pack_name` in `find_device_pack_path`:
`f'device_path_{product_line}'` (sic: the code writes `device_path_`,
while its own docstring asks for `device_pack_`). -/
def product_line_pack_name (product_line : String) : String :=
  "device_path_" ++ product_line

/-- The `find_pack` lambda of `find_device_pack_path`:
`chain(*[p.glob(name) for p in lib_path_list])`.  Note: each search
root is globbed directly, with no second `*/{name}` layer. -/
def find_pack (fs : FS) (lib_path_list : List FPath) (name : String) : List FPath :=
  List.flatten (lib_path_list.map (fun p => glob fs p name))

/-- The default-name tail of `find_device_pack_path`: search for
`product_line_pack_name`, `assert list_len < 2`, return `None` (logged,
not fatal) on zero matches and the unique match otherwise. -/
def find_device_pack_default_search (fs : FS) (lib_path_list : List FPath)
    (product_line : String) : Except String (Option FPath) :=
  let lst := find_pack fs lib_path_list (product_line_pack_name product_line)
  if lst.length < 2 then
    if lst.length = 0 then Except.ok none
    else Except.ok lst.head?
  else
    Except.error ("Found more than one device pack [ " ++
      product_line_pack_name product_line ++ " ].")

/-- Source `find_device_pack_path`.  Python `assert` failures are
modelled as `Except.error` carrying the assertion message; returning
`None` (no pack, not fatal) is `Except.ok none`.  The Python code first
runs `assert list_len <= 0` on the explicit-name match list, then the
(hence unreachable) `if len == 1: return`, then falls through to the
default-name search.  The informational prints are not modelled here. -/
def find_device_pack_path (fs : FS) (board : Board) (lib_path_list : List FPath)
    (product_line : String) : Except String (Option FPath) :=
  match Board.getStr? board "device_pack" with
  | none => find_device_pack_default_search fs lib_path_list product_line
  | some name =>
    let lst := find_pack fs lib_path_list name
    if lst.length ≤ 0 then
      if lst.length = 1 then Except.ok lst.head?
      else find_device_pack_default_search fs lib_path_list product_line
    else
      Except.error ("Found more than one device pack [ " ++ name ++ " ].")

/-- Source `find_header_path_in_device_pack`: read `device_include` from
the board config (default empty); empty list contributes nothing,
otherwise each entry is joined onto the pack directory with no
existence check. -/
def find_header_path_in_device_pack (board : Board) (pack_dir : FPath) : List FPath :=
  let include_list := Board.getList board "device_include" []
  if include_list.length = 0 then []
  else include_list.map (fun p => pathJoin pack_dir p)

/-- Name-selection part of `find_svd_file_path`: `debug.svd_name`, else
`debug.svd_path`, else `f'{product_line}.svd'`. -/
def get_svd_file_name (board : Board) (product_line : String) : String :=
  match Board.getStr? board "debug.svd_name" with
  | some n => n
  | none =>
    match Board.getStr? board "debug.svd_path" with
    | some n => n
    | none => product_line ++ ".svd"

/-- Source `find_svd_file_path`: the project `misc` copy wins, else the
pack is searched with `two_layer_glob(pack_dir, 'SVD/*.svd')` filtered
to the exact name; a unique match is returned, anything else is `none`.
`list[0]` on a singleton list is modelled by `head?`. -/
def find_svd_file_path (fs : FS) (board : Board) (product_line : String)
    (project_misc : FPath) (pack_dir : Option FPath) : Option FPath :=
  let svd_name := get_svd_file_name board product_line
  let svd_in_misc := pathJoin project_misc svd_name
  if fsExists fs svd_in_misc then some svd_in_misc
  else
    match pack_dir with
    | none => none
    | some pd =>
      let all_svd := two_layer_glob fs pd "SVD/*.svd"
      let target_svd := List.filter (fun f => pathName f == svd_name) all_svd
      if target_svd.length = 1 then target_svd.head? else none

/-- Name-selection part of `find_ldscript_file_path`: `build.ldscript`,
else `f'{product_line}.ld'`. -/
def get_ldscript_file_name (board : Board) (product_line : String) : String :=
  match Board.getStr? board "build.ldscript" with
  | some n => n
  | none => product_line ++ ".ld"

/-- Source `find_ldscript_file_path`: same shape as the SVD lookup with
pattern `Ldscript/*.ld`. -/
def find_ldscript_file_path (fs : FS) (board : Board) (product_line : String)
    (project_misc : FPath) (pack_dir : Option FPath) : Option FPath :=
  let ld_name := get_ldscript_file_name board product_line
  let ld_in_misc := pathJoin project_misc ld_name
  if fsExists fs ld_in_misc then some ld_in_misc
  else
    match pack_dir with
    | none => none
    | some pd =>
      let all_ld := two_layer_glob fs pd "Ldscript/*.ld"
      let target_ld := List.filter (fun f => pathName f == ld_name) all_ld
      if target_ld.length = 1 then target_ld.head? else none

/-- Source `find_source_file_in_device_pack`: a two-layer glob for
`f'{parent}/{file_name}'` inside the pack; zero matches return `None`
silently, a unique match is announced on stdout, several matches are
discarded with a stderr warning. -/
def find_source_file_in_device_pack (fs : FS) (pack_dir : FPath)
    (parent file_name : String) : Option FPath × List Msg :=
  let result := two_layer_glob fs pack_dir (parent ++ "/" ++ file_name)
  if result.length = 0 then (none, [])
  else if result.length = 1 then
    (result.head?,
      [Msg.mk Chan.stdout ("--> Found source file " ++ file_name ++ " in device pack.")])
  else
    (none,
      [Msg.mk Chan.stderr ("!-> Found multiple file " ++ file_name ++ " in device pack. Discard.")])

/-- Source `find_source_file_in_src`: any match of the (possibly
wildcarded) name in the project `src` tree counts, with no ambiguity
check there; absence is noted on stdout. -/
def find_source_file_in_src (fs : FS) (project_src : FPath)
    (file_name : String) : Bool × List Msg :=
  let result := two_layer_glob fs project_src file_name
  if result.length > 0 then (true, [])
  else (false, [Msg.mk Chan.stdout ("--> No file " ++ file_name ++ " in src.")])

/-- Source `get_startup_file_name`: `build.startup_file`, else the
glob pattern `f'startup_{product_line}.[sS]'` (case-insensitive
extension). -/
def get_startup_file_name (board : Board) (product_line : String) : String :=
  match Board.getStr? board "build.startup_file" with
  | some n => n
  | none => "startup_" ++ product_line ++ ".[sS]"

/-- Source `get_system_file_name`: `build.system_file`, else
`f'system_{product_line}.c'`. -/
def get_system_file_name (board : Board) (product_line : String) : String :=
  match Board.getStr? board "build.system_file" with
  | some n => n
  | none => "system_" ++ product_line ++ ".c"

/-- The duplicated top-level startup / system resolution block of the
script: look in the project `src` tree first; only when absent there
and the board flag permits it and a pack exists, search the pack's
dedicated subfolder; otherwise warn on stderr.  `warn_msg` is the
artifact-specific "not found" warning text. -/
def resolve_conditional_source (fs : FS) (board : Board) (project_src : FPath)
    (packOpt : Option FPath) (flag_key parent warn_msg file_name : String) :
    Option FPath × List Msg :=
  let r1 := find_source_file_in_src fs project_src file_name
  if r1.fst = false then
    if Board.getBool board flag_key false && packOpt.isSome then
      match packOpt with
      | some pd =>
        let r2 := find_source_file_in_device_pack fs pd parent file_name
        (r2.fst, r1.snd ++ r2.snd)
      | none => (none, r1.snd)
    else (none, r1.snd ++ [Msg.mk Chan.stderr warn_msg])
  else (none, r1.snd)

/-- Source `get_relative_path_to_device_pack`:
`file_path.resolve().as_posix().removeprefix(f'{pack.resolve().as_posix()}/')`. -/
def get_relative_path_to_device_pack (pack : FPath) (file_path : FPath) : String :=
  removePre (pathPosix file_path) (pathPosix pack ++ "/")

/-- One source-compilation registration handed to the orchestrator
(`env.BuildSources(...)`). -/
structure BuildRegistration where
  build_dir : String
  src_root : String
  src_filter : List String
deriving Repr, DecidableEq

/-- Source `build_source_file_in_device_pack`: register exactly the one
resolved file, under `$BUILD_DIR/SourceInDevicePack`, rooted at the
pack, with a filter excluding everything and re-including only the
pack-relative path. -/
def build_source_file_in_device_pack (pack : FPath) (file_path : FPath) : BuildRegistration :=
  let relative_path := get_relative_path_to_device_pack pack file_path
  { build_dir := "$BUILD_DIR/SourceInDevicePack"
    src_root := pathPosix pack
    src_filter := ["-<*>", "+<" ++ relative_path ++ ">"] }

/-- The `if startup_path is not None: build_source_file_in_device_pack(...)`
top-level step; a path is only ever non-None when a pack exists. -/
def registration_step (packOpt : Option FPath) (file_path : Option FPath) :
    List BuildRegistration :=
  match packOpt, file_path with
  | some pd, some f => [build_source_file_in_device_pack pd f]
  | _, _ => []

/-- The top-level SVD step: on success overwrite `debug.svd_path` in the
in-memory board config with the resolved absolute path; on failure warn
on stderr and leave the board config untouched. -/
def svd_step (fs : FS) (board0 : Board) (product_line : String)
    (project_misc : FPath) (packOpt : Option FPath) : Board × List Msg :=
  match find_svd_file_path fs board0 product_line project_misc packOpt with
  | none => (board0, [Msg.mk Chan.stderr "!-> SVD file not found. Debug feature may not work."])
  | some p => (Board.update board0 "debug.svd_path" (BVal.str (pathPosix p)), [])

/-- The top-level header step: header paths are only contributed when a
pack was found (the `if len > 0` guard before `env.Append` is a no-op
for the empty list and is not represented separately). -/
def header_step (board : Board) (packOpt : Option FPath) : List FPath :=
  match packOpt with
  | none => []
  | some pd => find_header_path_in_device_pack board pd

/-- The observable outcome of one full resolution run. -/
structure PipelineResult where
  pack : Option FPath
  ldscript : String
  board_out : Board
  cpppath : List FPath
  registrations : List BuildRegistration
  msgs : List Msg
deriving Repr, DecidableEq

/-- The part of the top-level script after the linker script has been
resolved. -/
def pipeline_rest (fs : FS) (board0 : Board) (product_line : String)
    (project_misc project_src : FPath) (packOpt : Option FPath)
    (ld_path : FPath) : PipelineResult :=
  let bs := svd_step fs board0 product_line project_misc packOpt
  let board1 := bs.fst
  let cpppath := header_step board1 packOpt
  let startup_name := get_startup_file_name board1 product_line
  let rs := resolve_conditional_source fs board1 project_src packOpt
    "build.use_device_pack_startup" "Startup"
    "!-> Startup file not found. Ignore this if it's ok." startup_name
  let system_name := get_system_file_name board1 product_line
  let ry := resolve_conditional_source fs board1 project_src packOpt
    "build.use_device_pack_system" "SystemSource"
    "!-> System file not found. Ignore this if it's ok." system_name
  { pack := packOpt
    ldscript := pathPosix ld_path
    board_out := board1
    cpppath := cpppath
    registrations := registration_step packOpt rs.fst ++ registration_step packOpt ry.fst
    msgs := bs.snd ++ rs.snd ++ ry.snd }

/-- The whole top-level script run: the `assert product_line` module
guard, pack discovery (whose assertion failures abort), the mandatory
linker-script resolution (absence raises `ValueError('No ldscript file
or wrong naming.')`), then the remaining optional steps, which never
abort.  Verbose/log-only stdout lines of the pack step are not
modelled. -/
def run_pipeline (fs : FS) (board : Board) (product_line : String)
    (project_path : FPath) (lib_path_list : List FPath) :
    Except String PipelineResult :=
  if product_line = "" then Except.error "Missing MCU or Product Line field"
  else
    let board0 := do_not_support_any_framework board
    match find_device_pack_path fs board0 lib_path_list product_line with
    | Except.error e => Except.error e
    | Except.ok packOpt =>
      match find_ldscript_file_path fs board0 product_line
          (project_path ++ ["misc"]) packOpt with
      | none => Except.error "No ldscript file or wrong naming."
      | some ld_path =>
        Except.ok (pipeline_rest fs board0 product_line
          (project_path ++ ["misc"]) (project_path ++ ["src"]) packOpt ld_path)

/-- The linker-script candidate list at the level that ends up deciding
the lookup: the `misc` copy when it exists, otherwise the name-filtered
pack candidates (empty when no pack was found). -/
def ld_candidates (fs : FS) (board : Board) (product_line : String)
    (project_misc : FPath) (pack_dir : Option FPath) : List FPath :=
  let ld_name := get_ldscript_file_name board product_line
  if fsExists fs (pathJoin project_misc ld_name) then [pathJoin project_misc ld_name]
  else
    match pack_dir with
    | none => []
    | some pd =>
      List.filter (fun f => pathName f == get_ldscript_file_name board product_line)
        (two_layer_glob fs pd "Ldscript/*.ld")

/-- The resolved linker script of a finished run, when the run finished. -/
def pipelineLdscript : Except String PipelineResult → Option String
  | Except.ok r => some r.ldscript
  | Except.error _ => none

/-- The final in-memory board configuration of a finished run. -/
def pipelineBoardOut : Except String PipelineResult → Option Board
  | Except.ok r => some r.board_out
  | Except.error _ => none

/-- The diagnostics of a finished run (empty for an aborted run). -/
def pipelineMsgs : Except String PipelineResult → List Msg
  | Except.ok r => r.msgs
  | Except.error _ => []

/-- A src-tree hit carries no message. -/
theorem find_source_file_in_src_of_found (fs : FS) (project_src : FPath)
    (file_name : String) (h : (find_source_file_in_src fs project_src file_name).fst = true) :
    find_source_file_in_src fs project_src file_name = (true, []) := by
  unfold find_source_file_in_src at h ⊢
  by_cases hl : (two_layer_glob fs project_src file_name).length > 0
  · simp [hl]
  · simp [hl] at h

/-- A src-tree miss produces exactly the stdout note. -/
theorem find_source_file_in_src_of_missing (fs : FS) (project_src : FPath)
    (file_name : String) (h : (find_source_file_in_src fs project_src file_name).fst = false) :
    find_source_file_in_src fs project_src file_name =
      (false, [Msg.mk Chan.stdout ("--> No file " ++ file_name ++ " in src.")]) := by
  unfold find_source_file_in_src at h ⊢
  by_cases hl : (two_layer_glob fs project_src file_name).length > 0
  · simp [hl] at h
  · simp [hl]

/-- The linker-script resolver returns the unique candidate of
`ld_candidates` and nothing otherwise. -/
theorem find_ldscript_eq_candidates (fs : FS) (board : Board) (product_line : String)
    (project_misc : FPath) (pack_dir : Option FPath) :
    find_ldscript_file_path fs board product_line project_misc pack_dir =
      (if (ld_candidates fs board product_line project_misc pack_dir).length = 1 then
        (ld_candidates fs board product_line project_misc pack_dir).head?
      else none) := by
  unfold find_ldscript_file_path ld_candidates
  by_cases hm : fsExists fs (pathJoin project_misc (get_ldscript_file_name board product_line)) = true
  · simp [hm]
  · simp only [Bool.not_eq_true] at hm
    cases pack_dir with
    | none => simp [hm]
    | some pd => simp [hm]

/-- A run that passes the product-line guard, pack discovery and the
linker-script lookup finishes, with `pipeline_rest` as its outcome. -/
theorem run_pipeline_ok_of (fs : FS) (board : Board) (product_line : String)
    (project_path : FPath) (lib_path_list : List FPath) (packOpt : Option FPath)
    (ld_path : FPath)
    (hpl : ¬ product_line = "")
    (hp : find_device_pack_path fs (do_not_support_any_framework board) lib_path_list
      product_line = Except.ok packOpt)
    (hld : find_ldscript_file_path fs (do_not_support_any_framework board) product_line
      (project_path ++ ["misc"]) packOpt = some ld_path) :
    run_pipeline fs board product_line project_path lib_path_list =
      Except.ok (pipeline_rest fs (do_not_support_any_framework board) product_line
        (project_path ++ ["misc"]) (project_path ++ ["src"]) packOpt ld_path) := by
  unfold run_pipeline
  simp [hpl, hp, hld]

/-- A run whose linker-script lookup fails aborts with the
`ValueError` message. -/
theorem run_pipeline_error_of (fs : FS) (board : Board) (product_line : String)
    (project_path : FPath) (lib_path_list : List FPath) (packOpt : Option FPath)
    (hpl : ¬ product_line = "")
    (hp : find_device_pack_path fs (do_not_support_any_framework board) lib_path_list
      product_line = Except.ok packOpt)
    (hld : find_ldscript_file_path fs (do_not_support_any_framework board) product_line
      (project_path ++ ["misc"]) packOpt = none) :
    run_pipeline fs board product_line project_path lib_path_list =
      Except.error "No ldscript file or wrong naming." := by
  unfold run_pipeline
  simp [hpl, hp, hld]

/-- Python `removeprefix` strips an actual prefix. -/
theorem removePre_append (pre rel : String) : removePre (pre ++ rel) pre = rel := by
  unfold removePre
  have hdata : (pre ++ rel).data = pre.data ++ rel.data := by
    cases pre with
    | mk l =>
      cases rel with
      | mk m => rfl
  have hpre : pre.data.isPrefixOf (pre ++ rel).data = true := by
    rw [hdata]
    exact List.isPrefixOf_iff_prefix.mpr (List.prefix_append pre.data rel.data)
  rw [if_pos hpre, hdata, List.drop_left]

/-- Membership in a one-component glob forces the hit to be a direct
child of the base directory. -/
theorem glob_single_component_mem (fs : FS) (base : FPath) (pattern : String)
    (p : FPath) (hone : (splitOnSlash pattern).length = 1)
    (hmem : p ∈ glob fs base pattern) : ∃ c, p = base ++ [c] := by
  unfold glob at hmem
  rw [List.mem_filter] at hmem
  obtain ⟨-, hpred⟩ := hmem
  rw [Bool.and_eq_true] at hpred
  obtain ⟨hpref, hmatch⟩ := hpred
  obtain ⟨t, ht⟩ := List.isPrefixOf_iff_prefix.mp hpref
  obtain ⟨pat, hpat⟩ := List.length_eq_one.mp hone
  rw [hpat] at hmatch
  have hdrop : p.drop base.length = t := by
    rw [← ht, List.drop_left]
  rw [hdrop] at hmatch
  cases t with
  | nil => simp [matchesAll] at hmatch
  | cons x xs =>
    cases xs with
    | nil => exact ⟨x, ht.symm⟩
    | cons y ys => simp [matchesAll] at hmatch

/-- The element of a singleton `head?`. -/
theorem head?_mem {α : Type} (l : List α) (a : α) (h : l.head? = some a) : a ∈ l := by
  cases l with
  | nil => simp at h
  | cons x xs =>
    simp at h
    simp [h]

/-- A pack returned by the default-name search came out of the
per-root glob results. -/
theorem default_search_some_mem (fs : FS) (lib_path_list : List FPath)
    (product_line : String) (p : FPath)
    (h : find_device_pack_default_search fs lib_path_list product_line =
      Except.ok (some p)) :
    p ∈ find_pack fs lib_path_list (product_line_pack_name product_line) := by
  unfold find_device_pack_default_search at h
  dsimp only at h
  split at h
  · split at h
    · simp at h
    · exact head?_mem _ _ (Except.ok.inj h)
  · simp at h

/-- Any pack actually returned by `find_device_pack_path` came out of
the per-root glob results of the default name (the explicit-name branch
never returns a pack because of its inverted assertion). -/
theorem find_device_pack_some_mem (fs : FS) (board : Board)
    (lib_path_list : List FPath) (product_line : String) (p : FPath)
    (h : find_device_pack_path fs board lib_path_list product_line =
      Except.ok (some p)) :
    p ∈ find_pack fs lib_path_list (product_line_pack_name product_line) := by
  unfold find_device_pack_path at h
  cases hb : Board.getStr? board "device_pack" with
  | none =>
    rw [hb] at h
    exact default_search_some_mem fs lib_path_list product_line p h
  | some name =>
    rw [hb] at h
    simp only at h
    split at h
    · split at h
      · rename_i hle h1
        omega
      · exact default_search_some_mem fs lib_path_list product_line p h
    · simp at h

/-- C1: with no explicit overrides, the derived default names are
`startup_<product_line>.[sS]` (matching the `.s` / `.S` case-insensitive
extension), `system_<product_line>.c`, `<product_line>.svd` and
`<product_line>.ld` — but the derived default pack name is
`device_path_<product_line>`, NOT `device_pack_<product_line>` as the
claim (and the script's own docstrings, lines 33 and 100-101) state.
Evaluated at product line `HK32F030M`. -/
theorem C1_default_names_divergence :
    get_startup_file_name ⟨[]⟩ "HK32F030M" = "startup_HK32F030M.[sS]" ∧
    matchesName (get_startup_file_name ⟨[]⟩ "HK32F030M") "startup_HK32F030M.s" = true ∧
    matchesName (get_startup_file_name ⟨[]⟩ "HK32F030M") "startup_HK32F030M.S" = true ∧
    get_system_file_name ⟨[]⟩ "HK32F030M" = "system_HK32F030M.c" ∧
    get_svd_file_name ⟨[]⟩ "HK32F030M" = "HK32F030M.svd" ∧
    get_ldscript_file_name ⟨[]⟩ "HK32F030M" = "HK32F030M.ld" ∧
    product_line_pack_name "HK32F030M" = "device_path_HK32F030M" ∧
    product_line_pack_name "HK32F030M" ≠ "device_pack_HK32F030M" :=
  ⟨rfl, by decide, by decide, rfl, rfl, rfl, rfl, by decide⟩

/-- C2: with an explicit `device_pack` name override and exactly one
matching directory in the search roots, the locator does NOT return the
match: its `assert list_len <= 0` fires and the run aborts with the
(self-contradictory) message `Found more than one device pack`.
Concretely: override `mypack`, the single search root `lib` containing
exactly the one directory `lib/mypack`. -/
theorem C2_explicit_pack_unique_match_raises :
    glob [["lib", "mypack"]] ["lib"] "mypack" = [["lib", "mypack"]] ∧
    find_device_pack_path [["lib", "mypack"]]
      ⟨[("device_pack", BVal.str "mypack")]⟩ [["lib"]] "HK32F030M" =
      Except.error "Found more than one device pack [ mypack ]." :=
  ⟨by decide, by rfl⟩

/-- C9: a startup or system file resolved from inside the device pack is
registered for compilation, alone, under the dedicated
`$BUILD_DIR/SourceInDevicePack` output directory, rooted at the pack,
with a source filter that first excludes everything under the pack root
(`-<*>`) and then re-includes only the path relative to the pack root
(`+<rel>`); the pack-relative path computed by `removeprefix` is exactly
the suffix of the file path below the pack root. -/
theorem C9_pack_registration_filter (pack file_path : FPath) (rel : String)
    (h : pathPosix file_path = pathPosix pack ++ "/" ++ rel) :
    get_relative_path_to_device_pack pack file_path = rel ∧
    build_source_file_in_device_pack pack file_path =
      { build_dir := "$BUILD_DIR/SourceInDevicePack"
        src_root := pathPosix pack
        src_filter := ["-<*>", "+<" ++ rel ++ ">"] } ∧
    registration_step (some pack) (some file_path) =
      [build_source_file_in_device_pack pack file_path] := by
  have hrel : get_relative_path_to_device_pack pack file_path = rel := by
    unfold get_relative_path_to_device_pack
    rw [h]
    exact removePre_append (pathPosix pack ++ "/") rel
  refine ⟨hrel, ?_, rfl⟩
  unfold build_source_file_in_device_pack
  rw [hrel]

/-- C9 witness: the pack `pk` with resolved file `pk/Startup/s.s`. -/
theorem C9_witness :
    get_relative_path_to_device_pack ["pk"] ["pk", "Startup", "s.s"] = "Startup/s.s" ∧
    build_source_file_in_device_pack ["pk"] ["pk", "Startup", "s.s"] =
      { build_dir := "$BUILD_DIR/SourceInDevicePack"
        src_root := pathPosix ["pk"]
        src_filter := ["-<*>", "+<" ++ "Startup/s.s" ++ ">"] } ∧
    registration_step (some ["pk"]) (some ["pk", "Startup", "s.s"]) =
      [build_source_file_in_device_pack ["pk"] ["pk", "Startup", "s.s"]] :=
  C9_pack_registration_filter ["pk"] ["pk", "Startup", "s.s"] "Startup/s.s" (by decide)

/-- C10: the header-path contributor returns exactly one path
`pack_root / entry` per configured `device_include` entry (so the empty
configured list contributes nothing), with no filesystem argument at
all — no existence check is possible — and the pipeline's header step
contributes nothing when no pack was found. -/
theorem C10_header_path_contributor (board : Board) (pack_dir : FPath) :
    find_header_path_in_device_pack board pack_dir =
      (Board.getList board "device_include" []).map (fun p => pathJoin pack_dir p) ∧
    header_step board none = [] := by
  constructor
  · cases h : Board.getList board "device_include" [] with
    | nil => simp [find_header_path_in_device_pack, h]
    | cons x xs => simp [find_header_path_in_device_pack, h]
  · rfl

/-- C3: once the run reaches the linker-script step, zero candidates in
both the project `misc` folder and the pack's `Ldscript` search abort
the run with the `ValueError` message (so nothing is registered), while
exactly one candidate finishes the run with that candidate's absolute
path registered as `LDSCRIPT_PATH`. -/
theorem C3_ldscript_zero_fatal_one_registered (fs : FS) (board : Board)
    (product_line : String) (project_path : FPath) (lib_path_list : List FPath)
    (packOpt : Option FPath)
    (hpl : ¬ product_line = "")
    (hp : find_device_pack_path fs (do_not_support_any_framework board)
      lib_path_list product_line = Except.ok packOpt) :
    (ld_candidates fs (do_not_support_any_framework board) product_line
        (project_path ++ ["misc"]) packOpt = [] →
      run_pipeline fs board product_line project_path lib_path_list =
        Except.error "No ldscript file or wrong naming.") ∧
    ((ld_candidates fs (do_not_support_any_framework board) product_line
        (project_path ++ ["misc"]) packOpt).length = 1 →
      pipelineLdscript (run_pipeline fs board product_line project_path lib_path_list) =
        (ld_candidates fs (do_not_support_any_framework board) product_line
          (project_path ++ ["misc"]) packOpt).head?.map pathPosix) := by
  constructor
  · intro hz
    apply run_pipeline_error_of fs board product_line project_path lib_path_list packOpt hpl hp
    rw [find_ldscript_eq_candidates, hz]
    simp
  · intro h1
    obtain ⟨f, hf⟩ := List.length_eq_one.mp h1
    have hld : find_ldscript_file_path fs (do_not_support_any_framework board)
        product_line (project_path ++ ["misc"]) packOpt = some f := by
      rw [find_ldscript_eq_candidates, hf]
      simp
    rw [run_pipeline_ok_of fs board product_line project_path lib_path_list packOpt f
      hpl hp hld, hf]
    simp [pipelineLdscript, pipeline_rest]

/-- C3 witness: product line `hk`, project `p` whose `misc` folder holds
`hk.ld`, no search roots: the single candidate is registered. -/
theorem C3_witness :
    pipelineLdscript (run_pipeline [["p", "misc", "hk.ld"]] ⟨[]⟩ "hk" ["p"] []) =
      (ld_candidates [["p", "misc", "hk.ld"]] (do_not_support_any_framework ⟨[]⟩)
        "hk" (["p"] ++ ["misc"]) none).head?.map pathPosix :=
  (C3_ldscript_zero_fatal_one_registered [["p", "misc", "hk.ld"]] ⟨[]⟩ "hk" ["p"] []
    none (by decide) (by rfl)).2 (by rfl)

/-- C4: when the target file already exists in the project tree (`misc`
copy for the SVD debug file and the linker script; any `src`-tree match
for a startup/system file), resolution returns the project copy — for
every pack argument alike, so the pack is never consulted — and the
startup/system step performs no pack lookup and emits nothing. -/
theorem C4_project_tree_precedence (fs : FS) (board : Board) (product_line : String)
    (project_misc project_src : FPath) (packOpt : Option FPath)
    (flag_key parent warn_msg file_name : String)
    (h1 : fsExists fs (pathJoin project_misc (get_svd_file_name board product_line)) = true)
    (h2 : fsExists fs (pathJoin project_misc (get_ldscript_file_name board product_line)) = true)
    (h3 : (find_source_file_in_src fs project_src file_name).fst = true) :
    find_svd_file_path fs board product_line project_misc packOpt =
      some (pathJoin project_misc (get_svd_file_name board product_line)) ∧
    find_ldscript_file_path fs board product_line project_misc packOpt =
      some (pathJoin project_misc (get_ldscript_file_name board product_line)) ∧
    resolve_conditional_source fs board project_src packOpt flag_key parent
      warn_msg file_name = (none, []) := by
  refine ⟨?_, ?_, ?_⟩
  · simp [find_svd_file_path, h1]
  · simp [find_ldscript_file_path, h2]
  · simp [resolve_conditional_source,
      find_source_file_in_src_of_found fs project_src file_name h3]

/-- C4 witness: every artifact exists both in the project tree and in
the pack `pk`; the project copies win. -/
theorem C4_witness :
    find_svd_file_path
      [["p", "misc", "hk.svd"], ["p", "misc", "hk.ld"], ["p", "src", "f.c"],
        ["pk", "SVD", "hk.svd"], ["pk", "Ldscript", "hk.ld"], ["pk", "Startup", "f.c"]]
      ⟨[]⟩ "hk" ["p", "misc"] (some ["pk"]) =
      some (pathJoin ["p", "misc"] (get_svd_file_name ⟨[]⟩ "hk")) ∧
    find_ldscript_file_path
      [["p", "misc", "hk.svd"], ["p", "misc", "hk.ld"], ["p", "src", "f.c"],
        ["pk", "SVD", "hk.svd"], ["pk", "Ldscript", "hk.ld"], ["pk", "Startup", "f.c"]]
      ⟨[]⟩ "hk" ["p", "misc"] (some ["pk"]) =
      some (pathJoin ["p", "misc"] (get_ldscript_file_name ⟨[]⟩ "hk")) ∧
    resolve_conditional_source
      [["p", "misc", "hk.svd"], ["p", "misc", "hk.ld"], ["p", "src", "f.c"],
        ["pk", "SVD", "hk.svd"], ["pk", "Ldscript", "hk.ld"], ["pk", "Startup", "f.c"]]
      ⟨[]⟩ ["p", "src"] (some ["pk"]) "build.use_device_pack_startup" "Startup"
      "!-> Startup file not found. Ignore this if it's ok." "f.c" = (none, []) :=
  C4_project_tree_precedence _ ⟨[]⟩ "hk" ["p", "misc"] ["p", "src"] (some ["pk"])
    "build.use_device_pack_startup" "Startup"
    "!-> Startup file not found. Ignore this if it's ok." "f.c"
    (by decide) (by decide) (by decide)

/-- C5: inside the device pack, two or more candidates matching the
target name make every lookup come back empty-handed — the SVD lookup
and the linker-script lookup return `none`, and the startup/system
lookup returns no path — rather than picking a candidate. -/
theorem C5_pack_ambiguity_not_found (fs : FS) (board : Board) (product_line : String)
    (project_misc pack_dir : FPath) (parent file_name : String)
    (h1 : fsExists fs (pathJoin project_misc (get_svd_file_name board product_line)) = false)
    (h2 : 2 ≤ (List.filter (fun f => pathName f == get_svd_file_name board product_line)
      (two_layer_glob fs pack_dir "SVD/*.svd")).length)
    (h3 : fsExists fs (pathJoin project_misc (get_ldscript_file_name board product_line)) = false)
    (h4 : 2 ≤ (List.filter (fun f => pathName f == get_ldscript_file_name board product_line)
      (two_layer_glob fs pack_dir "Ldscript/*.ld")).length)
    (h5 : 2 ≤ (two_layer_glob fs pack_dir (parent ++ "/" ++ file_name)).length) :
    find_svd_file_path fs board product_line project_misc (some pack_dir) = none ∧
    find_ldscript_file_path fs board product_line project_misc (some pack_dir) = none ∧
    (find_source_file_in_device_pack fs pack_dir parent file_name).fst = none := by
  refine ⟨?_, ?_, ?_⟩
  · simp only [find_svd_file_path, h1]
    simp only [Bool.false_eq_true, if_false]
    rw [if_neg (by omega)]
  · simp only [find_ldscript_file_path, h3]
    simp only [Bool.false_eq_true, if_false]
    rw [if_neg (by omega)]
  · simp only [find_source_file_in_device_pack]
    rw [if_neg (by omega), if_neg (by omega)]

/-- C5 witness: pack `pk` holding two copies (one direct, one nested)
of each of `hk.svd` under `SVD`, `hk.ld` under `Ldscript` and `s.s`
under `Startup`; every pack-level lookup reports "not found". -/
theorem C5_witness :
    find_svd_file_path
      [["pk", "SVD", "hk.svd"], ["pk", "a", "SVD", "hk.svd"],
        ["pk", "Ldscript", "hk.ld"], ["pk", "b", "Ldscript", "hk.ld"],
        ["pk", "Startup", "s.s"], ["pk", "c", "Startup", "s.s"]]
      ⟨[]⟩ "hk" ["p", "misc"] (some ["pk"]) = none ∧
    find_ldscript_file_path
      [["pk", "SVD", "hk.svd"], ["pk", "a", "SVD", "hk.svd"],
        ["pk", "Ldscript", "hk.ld"], ["pk", "b", "Ldscript", "hk.ld"],
        ["pk", "Startup", "s.s"], ["pk", "c", "Startup", "s.s"]]
      ⟨[]⟩ "hk" ["p", "misc"] (some ["pk"]) = none ∧
    (find_source_file_in_device_pack
      [["pk", "SVD", "hk.svd"], ["pk", "a", "SVD", "hk.svd"],
        ["pk", "Ldscript", "hk.ld"], ["pk", "b", "Ldscript", "hk.ld"],
        ["pk", "Startup", "s.s"], ["pk", "c", "Startup", "s.s"]]
      ["pk"] "Startup" "s.s").fst = none :=
  C5_pack_ambiguity_not_found _ ⟨[]⟩ "hk" ["p", "misc"] ["pk"] "Startup" "s.s"
    (by decide) (by decide) (by decide) (by decide) (by decide)

/-- C6: in a run that finishes, the final board configuration is
exactly what the SVD step produced: when SVD resolution fails
(including the ambiguous two-copies case, by C5) the board is left
untouched and the step emits only the stderr warning, which reaches the
run's diagnostics; when it succeeds the board holds
`debug.svd_path` overwritten with the resolved absolute path. -/
theorem C6_debug_key_update_iff_found (fs : FS) (board : Board) (product_line : String)
    (project_path : FPath) (lib_path_list : List FPath) (packOpt : Option FPath)
    (ld_path : FPath)
    (hpl : ¬ product_line = "")
    (hp : find_device_pack_path fs (do_not_support_any_framework board)
      lib_path_list product_line = Except.ok packOpt)
    (hld : find_ldscript_file_path fs (do_not_support_any_framework board) product_line
      (project_path ++ ["misc"]) packOpt = some ld_path) :
    pipelineBoardOut (run_pipeline fs board product_line project_path lib_path_list) =
      some (svd_step fs (do_not_support_any_framework board) product_line
        (project_path ++ ["misc"]) packOpt).fst ∧
    (find_svd_file_path fs (do_not_support_any_framework board) product_line
        (project_path ++ ["misc"]) packOpt = none →
      (svd_step fs (do_not_support_any_framework board) product_line
        (project_path ++ ["misc"]) packOpt).fst = do_not_support_any_framework board ∧
      (svd_step fs (do_not_support_any_framework board) product_line
        (project_path ++ ["misc"]) packOpt).snd =
        [Msg.mk Chan.stderr "!-> SVD file not found. Debug feature may not work."] ∧
      Msg.mk Chan.stderr "!-> SVD file not found. Debug feature may not work." ∈
        pipelineMsgs (run_pipeline fs board product_line project_path lib_path_list)) ∧
    (find_svd_file_path fs (do_not_support_any_framework board) product_line
        (project_path ++ ["misc"]) packOpt ≠ none →
      (svd_step fs (do_not_support_any_framework board) product_line
        (project_path ++ ["misc"]) packOpt).fst =
        Board.update (do_not_support_any_framework board) "debug.svd_path"
          (BVal.str (pathPosix ((find_svd_file_path fs (do_not_support_any_framework board)
            product_line (project_path ++ ["misc"]) packOpt).getD [])))) := by
  rw [run_pipeline_ok_of fs board product_line project_path lib_path_list packOpt
    ld_path hpl hp hld]
  refine ⟨?_, ?_, ?_⟩
  · simp [pipelineBoardOut, pipeline_rest]
  · intro hn
    refine ⟨?_, ?_, ?_⟩
    · simp [svd_step, hn]
    · simp [svd_step, hn]
    · simp [pipelineMsgs, pipeline_rest, svd_step, hn]
  · intro hne
    cases heq : find_svd_file_path fs (do_not_support_any_framework board) product_line
        (project_path ++ ["misc"]) packOpt with
    | none => exact absurd heq hne
    | some p => simp [svd_step, heq]

/-- C6 witness: project `p` with `misc/hk.ld` only — the run finishes,
SVD resolution fails, and the board comes out unchanged with the stderr
warning in the diagnostics. -/
theorem C6_witness :
    pipelineBoardOut (run_pipeline [["p", "misc", "hk.ld"]] ⟨[]⟩ "hk" ["p"] []) =
      some (svd_step [["p", "misc", "hk.ld"]] (do_not_support_any_framework ⟨[]⟩) "hk"
        (["p"] ++ ["misc"]) none).fst ∧
    (find_svd_file_path [["p", "misc", "hk.ld"]] (do_not_support_any_framework ⟨[]⟩) "hk"
        (["p"] ++ ["misc"]) none = none →
      (svd_step [["p", "misc", "hk.ld"]] (do_not_support_any_framework ⟨[]⟩) "hk"
        (["p"] ++ ["misc"]) none).fst = do_not_support_any_framework ⟨[]⟩ ∧
      (svd_step [["p", "misc", "hk.ld"]] (do_not_support_any_framework ⟨[]⟩) "hk"
        (["p"] ++ ["misc"]) none).snd =
        [Msg.mk Chan.stderr "!-> SVD file not found. Debug feature may not work."] ∧
      Msg.mk Chan.stderr "!-> SVD file not found. Debug feature may not work." ∈
        pipelineMsgs (run_pipeline [["p", "misc", "hk.ld"]] ⟨[]⟩ "hk" ["p"] [])) ∧
    (find_svd_file_path [["p", "misc", "hk.ld"]] (do_not_support_any_framework ⟨[]⟩) "hk"
        (["p"] ++ ["misc"]) none ≠ none →
      (svd_step [["p", "misc", "hk.ld"]] (do_not_support_any_framework ⟨[]⟩) "hk"
        (["p"] ++ ["misc"]) none).fst =
        Board.update (do_not_support_any_framework ⟨[]⟩) "debug.svd_path"
          (BVal.str (pathPosix ((find_svd_file_path [["p", "misc", "hk.ld"]]
            (do_not_support_any_framework ⟨[]⟩) "hk" (["p"] ++ ["misc"]) none).getD [])))) :=
  C6_debug_key_update_iff_found [["p", "misc", "hk.ld"]] ⟨[]⟩ "hk" ["p"] [] none
    ["p", "misc", "hk.ld"] (by decide) (by rfl) (by rfl)

/-- C7 counterexample: the pack directory carrying exactly the derived
default name sits one directory level below the search root `lib`
(at `lib/nested/device_path_hk32f030mxx`), yet the locator reports
"no pack": the search roots are globbed directly only, never one level
deeper. -/
theorem C7_counterexample :
    (["lib", "nested", "device_path_hk32f030mxx"] ∈
      ([["lib"], ["lib", "nested"], ["lib", "nested", "device_path_hk32f030mxx"]] : FS)) ∧
    product_line_pack_name "hk32f030mxx" = "device_path_hk32f030mxx" ∧
    find_device_pack_path
      [["lib"], ["lib", "nested"], ["lib", "nested", "device_path_hk32f030mxx"]]
      ⟨[]⟩ [["lib"]] "hk32f030mxx" = Except.ok none :=
  ⟨by decide, rfl, by rfl⟩

/-- C7 amended: the Device Pack Locator searches each search root
directly only (one `glob(name)` per root, with no second `*/name`
layer), so any pack it returns is an immediate child of one of the
search roots whenever the derived pack name is a single path
component; a pack nested one folder below a search root is not found. -/
theorem C7_amended_single_level_search (fs : FS) (board : Board)
    (lib_path_list : List FPath) (product_line : String) (p : FPath)
    (hone : (splitOnSlash (product_line_pack_name product_line)).length = 1)
    (hfound : find_device_pack_path fs board lib_path_list product_line =
      Except.ok (some p)) :
    lib_path_list.any (fun root => p == root ++ [pathName p]) = true := by
  have hmem := find_device_pack_some_mem fs board lib_path_list product_line p hfound
  unfold find_pack at hmem
  rw [List.mem_flatten] at hmem
  obtain ⟨l, hl, hpl⟩ := hmem
  rw [List.mem_map] at hl
  obtain ⟨root, hroot, rfl⟩ := hl
  obtain ⟨c, hc⟩ := glob_single_component_mem fs root
    (product_line_pack_name product_line) p hone hpl
  rw [List.any_eq_true]
  refine ⟨root, hroot, ?_⟩
  rw [beq_iff_eq, hc]
  unfold pathName
  rw [List.getLastD_concat]

/-- C7 amended witness: the pack `lib/device_path_hk` placed directly
in the search root is found, and is an immediate child of the root. -/
theorem C7_witness :
    [["lib"]].any (fun root =>
      ["lib", "device_path_hk"] == root ++ [pathName ["lib", "device_path_hk"]]) = true :=
  C7_amended_single_level_search [["lib", "device_path_hk"]] ⟨[]⟩ [["lib"]] "hk"
    ["lib", "device_path_hk"] (by decide) (by rfl)

/-- C8 counterexample: startup file absent from `src`, the board flag
`build.use_device_pack_startup` set, the pack present but with zero
matches in `Startup` — the step is a no-op as claimed, but NO warning
is emitted: the only diagnostic is the informational stdout note from
the earlier `src` search, and the filtered stderr output is empty. -/
theorem C8_counterexample :
    (find_source_file_in_src [["pk"], ["pk", "Startup"]] ["proj", "src"]
      "startup_hk.s").fst = false ∧
    Board.getBool ⟨[("build.use_device_pack_startup", BVal.bool true)]⟩
      "build.use_device_pack_startup" false = true ∧
    two_layer_glob [["pk"], ["pk", "Startup"]] ["pk"]
      ("Startup" ++ "/" ++ "startup_hk.s") = [] ∧
    resolve_conditional_source [["pk"], ["pk", "Startup"]]
      ⟨[("build.use_device_pack_startup", BVal.bool true)]⟩ ["proj", "src"]
      (some ["pk"]) "build.use_device_pack_startup" "Startup"
      "!-> Startup file not found. Ignore this if it's ok." "startup_hk.s" =
      (none, [Msg.mk Chan.stdout "--> No file startup_hk.s in src."]) ∧
    ((resolve_conditional_source [["pk"], ["pk", "Startup"]]
      ⟨[("build.use_device_pack_startup", BVal.bool true)]⟩ ["proj", "src"]
      (some ["pk"]) "build.use_device_pack_startup" "Startup"
      "!-> Startup file not found. Ignore this if it's ok." "startup_hk.s").snd.filter
        (fun m => m.chan == Chan.stderr)).length = 0 := by
  decide

/-- C8 amended: when the file is absent from the project `src` tree,
the board flag permits the pack search, a pack exists and the pack's
dedicated subfolder search yields zero matches, no file is resolved
(so nothing is registered) and no stderr warning is emitted at that
stage — the only diagnostic is the stdout note that the file is not in
`src`. -/
theorem C8_amended_zero_pack_matches_silent_noop (fs : FS) (board : Board)
    (project_src pack_dir : FPath) (flag_key parent warn_msg file_name : String)
    (h1 : (find_source_file_in_src fs project_src file_name).fst = false)
    (h2 : Board.getBool board flag_key false = true)
    (h3 : two_layer_glob fs pack_dir (parent ++ "/" ++ file_name) = []) :
    resolve_conditional_source fs board project_src (some pack_dir) flag_key parent
      warn_msg file_name =
      (none, [Msg.mk Chan.stdout ("--> No file " ++ file_name ++ " in src.")]) := by
  have hr1 := find_source_file_in_src_of_missing fs project_src file_name h1
  simp only [resolve_conditional_source, hr1]
  simp [h2, find_source_file_in_device_pack, h3]

/-- C8 amended witness: flag set, pack `pk` present, `s.s` nowhere. -/
theorem C8_witness :
    resolve_conditional_source [["pk"], ["pk", "Startup"]]
      ⟨[("build.use_device_pack_startup", BVal.bool true)]⟩ ["proj", "src"]
      (some ["pk"]) "build.use_device_pack_startup" "Startup"
      "!-> Startup file not found. Ignore this if it's ok." "s.s" =
      (none, [Msg.mk Chan.stdout ("--> No file " ++ "s.s" ++ " in src.")]) :=
  C8_amended_zero_pack_matches_silent_noop [["pk"], ["pk", "Startup"]]
    ⟨[("build.use_device_pack_startup", BVal.bool true)]⟩ ["proj", "src"] ["pk"]
    "build.use_device_pack_startup" "Startup"
    "!-> Startup file not found. Ignore this if it's ok." "s.s"
    (by decide) (by decide) (by decide)

end CortexM
